import Mathlib

/-!
Shallow embedding of `src/idb/client/grpc.py` (the connection/dispatch core of
the idb gRPC client facade).

Modelling conventions:
- Python exceptions are the inductive `PyExc`.  `IdbException` is the domain
  exception; `GRPCError`, `ProtocolError`, `StreamTerminatedError` are the
  transport faults; `KeyError` / `AttributeError` are the relevant builtins.
- A Python `async def` body is a `Coroutine`: the list of observable events it
  emits when awaited together with its result (value or raised exception).
  Calling an async function only *creates* the coroutine — creation emits no
  events and raises none of the body's exceptions.  A `PyCall` is the
  observable behaviour of *calling* a callable: call-time events plus the
  call-time result.  `awaitCall` is the caller's combined view of calling a
  wrapped async method and then awaiting what it returned.
- Network and logging side effects are `Event`s; bytes are `List Nat`.
- External collaborators that are not under `src/` (`DaemonSpawner`,
  `ipc_loader.client_calls`, `log_call`, `stream_map`, `drain_to_stream`) are
  modelled from the spec; each such definition says so in its doc comment.
  `generate_tar`'s output is a parameter (the claims compare traces against
  it, whatever it is).
-/

/-- The Python exceptions that appear in `grpc.py`.  Payload tuples are
`List String` (for `GRPCError` the single message string). -/
inductive PyExc where
  | grpcError (message : String)
  | protocolError (args : List String)
  | streamTerminated (args : List String)
  | idbException (args : List String)
  | keyError (key : String)
  | attributeError (message : String)
  | daemonUnavailable
  | otherExc (name : String)
deriving DecidableEq, Repr

/-- `IdbException` and its subclasses are the domain exception family
(`PeerNotFound`-style errors derive from it). -/
def isIdbException : PyExc → Bool
  | .idbException _ => true
  | _ => false

/-- `idb_pb2.Payload`: either a literal file path or raw archive bytes. -/
inductive Payload where
  | filePath (p : String)
  | dataChunk (bytes : List Nat)
deriving DecidableEq, Repr

/-- `idb_pb2.AddMediaRequest`. -/
structure AddMediaRequest where
  payload : Payload
deriving DecidableEq, Repr

/-- `ApproveRequest` permission enumeration values (`PHOTOS`, `CAMERA`,
`CONTACTS`). -/
inductive Permission where
  | PHOTOS
  | CAMERA
  | CONTACTS
deriving DecidableEq, Repr

/-- `CompanionInfo` as consumed from `DirectCompanionManager`. -/
structure CompanionInfo where
  udid : String
  host : String
  port : Nat
  is_local : Bool
deriving DecidableEq, Repr

/-- Observable side effects of the client: logging events and transport
events on the companion stream / stubs. -/
inductive Event where
  | logCall (name : String)
  | logCompanion (info : CompanionInfo)
  | logException (e : PyExc)
  | sendMessage (m : AddMediaRequest)
  | streamEnd
  | recvMessage
  | listAppsRpc
  | accessibilityRpc (point : Option (Int × Int))
  | approveRpc (bundle_id : String) (permissions : List Permission)
deriving DecidableEq, Repr

instance {ε α : Type} [DecidableEq ε] [DecidableEq α] : DecidableEq (Except ε α) := fun x y =>
  match x, y with
  | .ok a, .ok b => if h : a = b then .isTrue (by simp [h]) else .isFalse (by simp [h])
  | .error a, .error b => if h : a = b then .isTrue (by simp [h]) else .isFalse (by simp [h])
  | .ok _, .error _ => .isFalse (by simp)
  | .error _, .ok _ => .isFalse (by simp)

/-- The behaviour of awaiting a Python coroutine: the events its body emits
and its outcome. -/
structure Coroutine (α : Type) where
  events : List Event
  result : Except PyExc α
deriving DecidableEq, Repr

/-- The behaviour of *calling* a Python callable (before any awaiting):
events emitted synchronously during the call, and the value returned or the
exception raised by the call itself. -/
structure PyCall (α : Type) where
  callEvents : List Event
  callResult : Except PyExc α
deriving DecidableEq, Repr

/-- Calling an `async def` function: the body does not run; the call emits no
events and returns the coroutine, never raising the body's exceptions. -/
def asyncCall (body : Coroutine α) : PyCall (Coroutine α) :=
  ⟨[], .ok body⟩

/-- The translation performed by the two `except` clauses of `func_wrapper`:
`GRPCError e ↦ IdbException(e.message)`, and `ProtocolError` /
`StreamTerminatedError e ↦ IdbException(e.args)`; anything else would not be
caught. -/
def translateExc : PyExc → PyExc
  | .grpcError m => .idbException [m]
  | .protocolError a => .idbException a
  | .streamTerminated a => .idbException a
  | e => e

/-- `func_wrapper` (the inner wrapper of `log_and_handle_exceptions`): a plain
`def`, so its `try` block covers only the *call* `func(*args, **kwargs)` —
for an async `func` that is coroutine creation.  Exceptions raised by that
call are translated; whatever the call returns is passed through. -/
def func_wrapper (func : PyCall α) : PyCall α :=
  { callEvents := func.callEvents
    callResult :=
      match func.callResult with
      | .ok v => .ok v
      | .error e => .error (translateExc e) }

/-- Modelled from the spec: `idb.common.logging.log_call` is not under `src/`;
the spec says the wrapper "logs a call-boundary event carrying at least the
operation name" before invocation, so the decorated callable emits the log
event and then behaves as the wrapped callable. -/
def log_call (name : String) (func : PyCall α) : PyCall α :=
  { callEvents := .logCall name :: func.callEvents
    callResult := func.callResult }

/-- `log_and_handle_exceptions` from `grpc.py`: `func_wrapper` decorated with
`log_call(name=func.__name__)`.  Functions are modelled already applied to
their arguments, so the decorator acts pointwise on the resulting call. -/
def log_and_handle_exceptions (name : String) (func : PyCall α) : PyCall α :=
  log_call name (func_wrapper func)

/-- What a caller of `await client.op(...)` observes for a wrapped async
method: the call's synchronous events, then — if the call returned a
coroutine — the awaited body's events and outcome. -/
def awaitCall (c : PyCall (Coroutine α)) : List Event × Except PyExc α :=
  match c.callResult with
  | .error e => (c.callEvents, .error e)
  | .ok coro => (c.callEvents ++ coro.events, coro.result)

/-- `grpclib.client.Channel`: identified by the address it was dialed to plus
a freshness id (distinct dials yield distinct handles). -/
structure Channel where
  host : String
  port : Nat
  id : Nat
deriving DecidableEq, Repr

/-- `CompanionServiceStub`: bound to the channel it was constructed over. -/
structure CompanionServiceStub where
  channel : Channel
deriving DecidableEq, Repr

/-- `idb.grpc.types.CompanionClient` as built by `provide_client` (the logger
is irrelevant to the claims and omitted). -/
structure CompanionClient where
  stub : CompanionServiceStub
  is_local : Bool
  udid : Option String
deriving DecidableEq, Repr

/-- The mutable state of a `GrpcClient` facade instance.  `installed_calls`
is the table produced by the `setattr` loop in `__init__`; `companion_info`
is `none` when the attribute was never assigned (resolution failed). -/
structure GrpcClient where
  port : Nat
  host : String
  target_udid : Option String
  force_kill_daemon : Bool
  daemon_channel : Option Channel
  daemon_stub : Option CompanionServiceStub
  installed_calls : List (String × PyCall (Coroutine Unit))
  companion_info : Option CompanionInfo
  channel : Option Channel
  stub : Option CompanionServiceStub
deriving DecidableEq, Repr

/-- `APPROVE_MAP` from `grpc.py`. -/
def APPROVE_MAP : List (String × Permission) :=
  [("photos", .PHOTOS), ("camera", .CAMERA), ("contacts", .CONTACTS)]

/-- Python dict lookup `APPROVE_MAP[permission]` as an optional value. -/
def lookupApprove (permission : String) : Option Permission :=
  (APPROVE_MAP.find? (fun kv => kv.1 = permission)).map (·.2)

/-- The list comprehension `[APPROVE_MAP[p] for p in permissions]`: evaluated
left to right, raising `KeyError` at the first unrecognized name. -/
def mapPermissions : List String → Except PyExc (List Permission)
  | [] => .ok []
  | p :: ps =>
    match lookupApprove p with
    | none => .error (.keyError p)
    | some v =>
      match mapPermissions ps with
      | .error e => .error e
      | .ok vs => .ok (v :: vs)

/-- Modelled from the spec: `ipc_loader.client_calls` is not under `src/`;
the spec says every dispatched call passes through the logging/translation
wrapper ("this wrapper must apply uniformly to every dispatched call"),
so each registry descriptor `(name, body)` is installed as that name bound
to the wrapped async call. -/
def client_calls (registry : List (String × Coroutine Unit)) :
    List (String × PyCall (Coroutine Unit)) :=
  registry.map (fun nb => (nb.1, log_and_handle_exceptions nb.1 (asyncCall nb.2)))

/-- `GrpcClient.__init__`.  The companion resolver
(`DirectCompanionManager.get_companion_info`) is passed as a function.  Field
assignments happen in source order; only an `IdbException` from the resolver
is caught (and logged) — any other exception escapes the constructor.  The
construction-time companion `Channel` gets freshness id 0. -/
def grpcClientInit (port : Nat) (host : String) (target_udid : Option String)
    (force_kill_daemon : Bool) (registry : List (String × Coroutine Unit))
    (resolve : Option String → Except PyExc CompanionInfo) :
    Except PyExc (GrpcClient × List Event) :=
  let base : GrpcClient :=
    { port := port, host := host, target_udid := target_udid
      force_kill_daemon := force_kill_daemon
      daemon_channel := none, daemon_stub := none
      installed_calls := client_calls registry
      companion_info := none, channel := none, stub := none }
  match resolve target_udid with
  | .ok info =>
    let ch : Channel := ⟨info.host, info.port, 0⟩
    let c : GrpcClient :=
      { base with companion_info := some info, channel := some ch, stub := some ⟨ch⟩ }
    .ok (c, [.logCompanion info])
  | .error e =>
    if isIdbException e then .ok (base, [.logException e])
    else .error e

/-- State of the external daemon world: whether the daemon process runs, how
many spawn attempts were made, and how many daemon dials happened. -/
structure DaemonState where
  running : Bool
  spawnAttempts : Nat
  dialCount : Nat
deriving DecidableEq, Repr

/-- Modelled from the spec: `DaemonSpawner.start_daemon_if_needed` is not
under `src/`; the spec says the provider "ensures the daemon process is
running (delegating to an external process-spawner collaborator with a
'force-restart' flag)" and that spawn failures surface as
`DaemonUnavailable`.  So: a no-op when the daemon runs and force-restart is
off; otherwise one spawn attempt whose outcome is the environment's
`spawnFails` disposition. -/
def start_daemon_if_needed (spawnFails : Bool) (force : Bool) (d : DaemonState) :
    DaemonState × Except PyExc Unit :=
  if d.running && !force then (d, .ok ())
  else if spawnFails then
    ({ d with running := false, spawnAttempts := d.spawnAttempts + 1 },
     .error .daemonUnavailable)
  else
    ({ d with running := true, spawnAttempts := d.spawnAttempts + 1 }, .ok ())

/-- The channel/stub segment of `provide_client`: between its two awaits the
body runs without suspension, so this segment is atomic.  If either slot is
unset, both are recreated (one dial); otherwise the cached pair is reused. -/
def dialStep (c : GrpcClient) (d : DaemonState) :
    GrpcClient × DaemonState × CompanionClient :=
  match c.daemon_channel, c.daemon_stub with
  | some _, some st => (c, d, ⟨st, true, c.target_udid⟩)
  | _, _ =>
    let ch : Channel := ⟨c.host, c.port, d.dialCount⟩
    let st : CompanionServiceStub := ⟨ch⟩
    ({ c with daemon_channel := some ch, daemon_stub := some st },
     { d with dialCount := d.dialCount + 1 }, ⟨st, true, c.target_udid⟩)

/-- `GrpcClient.provide_client`, sequential semantics: await the spawner,
then (atomically) reuse or create the cached daemon channel and stub and
return the `CompanionClient` handle. -/
def provide_client (spawnFails : Bool) (c : GrpcClient) (d : DaemonState) :
    GrpcClient × DaemonState × Except PyExc CompanionClient :=
  match start_daemon_if_needed spawnFails c.force_kill_daemon d with
  | (d1, .error e) => (c, d1, .error e)
  | (d1, .ok _) =>
    let r := dialStep c d1
    (r.1, r.2.1, .ok r.2.2)

/-- Python truthiness of `self.target_udid` (an `Optional[str]`): `None` and
the empty string are falsy. -/
def pyTruthyStr : Option String → Bool
  | none => false
  | some s => !(s == "")

/-- `GrpcClient.metadata`: `{"udid": target_udid}` when the identifier is
truthy, else the empty dict.  A read-only property: it takes the client and
returns a value, leaving the client untouched. -/
def GrpcClient.metadata (c : GrpcClient) : List (String × String) :=
  if pyTruthyStr c.target_udid then [("udid", c.target_udid.getD "")] else []

/-- A record of the `ListAppsResponse.apps` field. -/
structure AppRecord where
  bundle_id : String
  name : String
  architectures : List String
  install_type : String
  process_state : Nat
  debuggable : Bool
deriving DecidableEq, Repr

/-- `idb.common.types.InstalledAppInfo` (`AppProcessState` kept as its raw
numeric value). -/
structure InstalledAppInfo where
  bundle_id : String
  name : String
  architectures : List String
  install_type : String
  process_state : Nat
  debuggable : Bool
deriving DecidableEq, Repr

/-- `idb.common.types.AccessibilityInfo`. -/
structure AccessibilityInfo where
  json : String
deriving DecidableEq, Repr

/-- `GrpcClient.list_apps` body.  `self.stub` is `None` when companion
resolution failed, so the attribute access `self.stub.list_apps` raises
`AttributeError` before anything is sent.  The server response is a
parameter. -/
def list_apps_body (c : GrpcClient) (resp : List AppRecord) :
    Coroutine (List InstalledAppInfo) :=
  match c.stub with
  | none => ⟨[], .error (.attributeError "list_apps")⟩
  | some _ =>
    ⟨[.listAppsRpc],
     .ok (resp.map (fun a =>
       ⟨a.bundle_id, a.name, a.architectures, a.install_type,
        a.process_state, a.debuggable⟩))⟩

/-- `GrpcClient.accessibility_info` body: the optional `Point` argument is
built first (it cannot fail), then `self.stub.accessibility_info` is
accessed. -/
def accessibility_info_body (c : GrpcClient) (point : Option (Int × Int))
    (respJson : String) : Coroutine AccessibilityInfo :=
  match c.stub with
  | none => ⟨[], .error (.attributeError "accessibility_info")⟩
  | some _ => ⟨[.accessibilityRpc point], .ok ⟨respJson⟩⟩

/-- Modelled from the spec: `idb.common.stream.stream_map` is not under
`src/`; the spec says each archive chunk is "mapped into a message carrying
raw bytes" in order, so it is a map over the chunk sequence. -/
def stream_map (chunks : List (List Nat)) (f : List Nat → AddMediaRequest) :
    List AddMediaRequest :=
  chunks.map f

/-- Modelled from the spec: `idb.grpc.stream.drain_to_stream` is not under
`src/`; the spec says the mapped sequence is drained onto the stream "then
await server-side acknowledgment the same way" as the local path — every
generator item sent in order, end-of-input signalled, one acknowledgment
read. -/
def drain_to_stream (msgs : List AddMediaRequest) : List Event :=
  msgs.map Event.sendMessage ++ [.streamEnd, .recvMessage]

/-- `GrpcClient.add_media` body.  `self.stub.add_media.open()` fails on a
`None` stub; `self.companion_info` was never assigned when resolution failed.
For a local peer each path is sent as a `file_path` payload, then the stream
is ended and one acknowledgment is read; for a remote peer the archive
chunks produced by `generate_tar` (a parameter: the collaborator's output
sequence) are wrapped as `data` payloads and drained. -/
def add_media_body (c : GrpcClient) (file_paths : List String)
    (tarChunks : List (List Nat)) : Coroutine Unit :=
  match c.stub with
  | none => ⟨[], .error (.attributeError "add_media")⟩
  | some _ =>
    match c.companion_info with
    | none => ⟨[], .error (.attributeError "companion_info")⟩
    | some info =>
      if info.is_local then
        ⟨file_paths.map (fun p => .sendMessage ⟨.filePath p⟩)
           ++ [.streamEnd, .recvMessage], .ok ()⟩
      else
        ⟨drain_to_stream
           (stream_map tarChunks (fun chunk => ⟨.dataChunk chunk⟩)), .ok ()⟩

/-- `GrpcClient.approve` body.  Python evaluates the callable
`self.stub.approve` before its argument, so a `None` stub raises
`AttributeError` first; otherwise the permission comprehension runs and a
lookup failure raises `KeyError` before the request is sent. -/
def approve_body (c : GrpcClient) (bundle_id : String)
    (permissions : List String) : Coroutine Unit :=
  match c.stub with
  | none => ⟨[], .error (.attributeError "approve")⟩
  | some _ =>
    match mapPermissions permissions with
    | .error e => ⟨[], .error e⟩
    | .ok ps => ⟨[.approveRpc bundle_id ps], .ok ()⟩

/-- The four decorated entry points as seen by a caller (method wrapped by
`log_and_handle_exceptions`). -/
def list_apps_call (c : GrpcClient) (resp : List AppRecord) :
    PyCall (Coroutine (List InstalledAppInfo)) :=
  log_and_handle_exceptions "list_apps" (asyncCall (list_apps_body c resp))

def accessibility_info_call (c : GrpcClient) (point : Option (Int × Int))
    (respJson : String) : PyCall (Coroutine AccessibilityInfo) :=
  log_and_handle_exceptions "accessibility_info"
    (asyncCall (accessibility_info_body c point respJson))

def add_media_call (c : GrpcClient) (file_paths : List String)
    (tarChunks : List (List Nat)) : PyCall (Coroutine Unit) :=
  log_and_handle_exceptions "add_media"
    (asyncCall (add_media_body c file_paths tarChunks))

def approve_call (c : GrpcClient) (bundle_id : String)
    (permissions : List String) : PyCall (Coroutine Unit) :=
  log_and_handle_exceptions "approve"
    (asyncCall (approve_body c bundle_id permissions))

/-- Progress of one in-flight `provide_client` invocation under the
cooperative event loop: it suspends exactly once, at the spawner await;
the check-and-dial segment that follows runs without suspension. -/
inductive TaskPhase where
  | start
  | spawned
  | done (r : Except PyExc CompanionClient)
deriving DecidableEq, Repr

/-- A facade instance, the daemon world, and N concurrent `provide_client`
invocations. -/
structure Sys where
  client : GrpcClient
  daemon : DaemonState
  tasks : List TaskPhase
deriving DecidableEq, Repr

/-- One scheduler step: run the next atomic segment of task `i` (out-of-range
or finished tasks are a no-op).  The segments are exactly those of
`provide_client`: the spawner await, then the atomic check-and-dial. -/
def stepTask (spawnFails : Bool) (s : Sys) (i : Nat) : Sys :=
  match s.tasks.get? i with
  | none => s
  | some .start =>
    let sp := start_daemon_if_needed spawnFails s.client.force_kill_daemon s.daemon
    match sp.2 with
    | .error e => { s with daemon := sp.1, tasks := s.tasks.set i (.done (.error e)) }
    | .ok _ => { s with daemon := sp.1, tasks := s.tasks.set i .spawned }
  | some .spawned =>
    let r := dialStep s.client s.daemon
    { client := r.1, daemon := r.2.1, tasks := s.tasks.set i (.done (.ok r.2.2)) }
  | some (.done _) => s

/-- Run a cooperative schedule: a sequence of task choices. -/
def runSched (spawnFails : Bool) (s : Sys) : List Nat → Sys
  | [] => s
  | i :: rest => runSched spawnFails (stepTask spawnFails s i) rest

/-- A task that has returned to its caller. -/
def TaskPhase.isDone : TaskPhase → Bool
  | .done _ => true
  | _ => false

/-- The system of N first-time concurrent callers on facade `c` with the
daemon world initially fresh (not running, no attempts, no dials). -/
def initSys (c : GrpcClient) (n : Nat) : Sys :=
  ⟨c, ⟨false, 0, 0⟩, List.replicate n .start⟩

/-- The channel the first (and, as proved below, only) daemon dial of a fresh
facade creates. -/
def chZero (c0 : GrpcClient) : Channel := ⟨c0.host, c0.port, 0⟩

/-- The handle every concurrent first-time caller ends up with. -/
def handleZero (c0 : GrpcClient) : CompanionClient :=
  ⟨⟨chZero c0⟩, true, c0.target_udid⟩

/-- Reachability invariant of the N-caller system when spawning succeeds and
force-restart is off: the system is in one of three phases — nothing
happened yet, the daemon is up but not yet dialed, or the unique dial is
done and every finished caller holds the same handle. -/
def InvOk (c0 : GrpcClient) (s : Sys) : Prop :=
  (s.client = c0 ∧ s.daemon = ⟨false, 0, 0⟩ ∧ ∀ t ∈ s.tasks, t = .start)
  ∨ (s.client = c0 ∧ s.daemon = ⟨true, 1, 0⟩
      ∧ ∀ t ∈ s.tasks, t = .start ∨ t = .spawned)
  ∨ (s.client = { c0 with daemon_channel := some (chZero c0)
                          daemon_stub := some ⟨chZero c0⟩ }
      ∧ s.daemon = ⟨true, 1, 1⟩
      ∧ ∀ t ∈ s.tasks, t = .start ∨ t = .spawned
          ∨ t = .done (.ok (handleZero c0)))

/-- Reachability invariant when every spawn attempt fails: no task ever
dials, and every finished caller observed the same failure. -/
def InvFail (c0 : GrpcClient) (s : Sys) : Prop :=
  s.client = c0 ∧ s.daemon.running = false ∧ s.daemon.dialCount = 0
  ∧ ∀ t ∈ s.tasks, t = .start ∨ t = .done (.error .daemonUnavailable)

/-- A facade whose companion peer resolved as local (concrete instance used
by witnesses). -/
def sampleLocalClient : GrpcClient :=
  { port := 9889, host := "localhost", target_udid := some "UDID-1"
    force_kill_daemon := false, daemon_channel := none, daemon_stub := none
    installed_calls := []
    companion_info := some ⟨"UDID-1", "localhost", 10882, true⟩
    channel := some ⟨"localhost", 10882, 0⟩
    stub := some ⟨⟨"localhost", 10882, 0⟩⟩ }

/-- A facade whose companion peer resolved as remote. -/
def sampleRemoteClient : GrpcClient :=
  { port := 9889, host := "localhost", target_udid := some "UDID-2"
    force_kill_daemon := false, daemon_channel := none, daemon_stub := none
    installed_calls := []
    companion_info := some ⟨"UDID-2", "10.0.0.7", 10882, false⟩
    channel := some ⟨"10.0.0.7", 10882, 0⟩
    stub := some ⟨⟨"10.0.0.7", 10882, 0⟩⟩ }

/-- A facade constructed with `force_kill_daemon=True`. -/
def forceClient : GrpcClient :=
  { port := 9889, host := "localhost", target_udid := some "UDID-3"
    force_kill_daemon := true, daemon_channel := none, daemon_stub := none
    installed_calls := [], companion_info := none, channel := none
    stub := none }

/-- A freshly constructed facade with force-restart off. -/
def plainClient : GrpcClient :=
  { port := 9889, host := "localhost", target_udid := some "UDID-4"
    force_kill_daemon := false, daemon_channel := none, daemon_stub := none
    installed_calls := [], companion_info := none, channel := none
    stub := none }

/-- A facade whose companion resolution failed: `stub` was left `None`. -/
def unresolvedClient : GrpcClient :=
  { port := 9889, host := "localhost", target_udid := some "UDID-404"
    force_kill_daemon := false, daemon_channel := none, daemon_stub := none
    installed_calls := [], companion_info := none, channel := none
    stub := none }

/-- C1 (code bug): a structured transport fault (`GRPCError`) or an abnormal
stream termination raised mid-call — while the caller awaits the coroutine —
reaches the caller untranslated, not as `IdbException`.  `func_wrapper` is a
plain `def` whose `try` covers only coroutine creation, so its `except`
clauses (which do translate call-time exceptions, last two conjuncts) can
never see an exception raised by the awaited body. -/
theorem c1_midcall_fault_reaches_caller_untranslated :
    awaitCall (log_and_handle_exceptions "list_apps"
        (asyncCall (⟨[], .error (.grpcError "connection closed")⟩ : Coroutine Unit)))
      = ([.logCall "list_apps"], .error (.grpcError "connection closed"))
    ∧ awaitCall (log_and_handle_exceptions "list_apps"
        (asyncCall (⟨[], .error (.streamTerminated ["stream reset"])⟩ : Coroutine Unit)))
      = ([.logCall "list_apps"], .error (.streamTerminated ["stream reset"]))
    ∧ translateExc (.grpcError "connection closed")
      = .idbException ["connection closed"]
    ∧ func_wrapper (⟨[], .error (.grpcError "connection closed")⟩ : PyCall Unit)
      = ⟨[], .error (.idbException ["connection closed"])⟩ :=
  ⟨rfl, rfl, rfl, rfl⟩

/-- C2: every remote-call entry point — each descriptor installed from the
registry at construction time and the upload pipeline's entry point
`add_media` — passes through the logging-and-error-translation wrapper, and
the call trace starts with the call-boundary log event carrying the
operation name, before any event of the body. -/
theorem c2_every_entry_point_wrapped_and_logged
    (registry : List (String × Coroutine Unit)) (name : String)
    (body : Coroutine Unit) (c : GrpcClient) (paths : List String)
    (chunks : List (List Nat)) (hmem : (name, body) ∈ registry) :
    ((name, log_and_handle_exceptions name (asyncCall body)) ∈ client_calls registry
      ∧ (awaitCall (log_and_handle_exceptions name (asyncCall body))).1
          = .logCall name :: body.events)
    ∧ (awaitCall (add_media_call c paths chunks)).1
        = .logCall "add_media" :: (add_media_body c paths chunks).events := by
  refine ⟨⟨?_, rfl⟩, rfl⟩
  unfold client_calls
  exact List.mem_map_of_mem _ hmem

/-- C2 witness: a one-descriptor registry; its installed call is wrapped and
its trace starts with the log event. -/
theorem c2_witness :
    (("list_targets", log_and_handle_exceptions "list_targets"
          (asyncCall (⟨[], .ok ()⟩ : Coroutine Unit)))
        ∈ client_calls [("list_targets", (⟨[], .ok ()⟩ : Coroutine Unit))]
      ∧ (awaitCall (log_and_handle_exceptions "list_targets"
          (asyncCall (⟨[], .ok ()⟩ : Coroutine Unit)))).1
          = .logCall "list_targets" :: (⟨[], .ok ()⟩ : Coroutine Unit).events)
    ∧ (awaitCall (add_media_call sampleLocalClient ["a.png"] [])).1
        = .logCall "add_media"
            :: (add_media_body sampleLocalClient ["a.png"] []).events :=
  c2_every_entry_point_wrapped_and_logged
    [("list_targets", ⟨[], .ok ()⟩)] "list_targets" ⟨[], .ok ()⟩
    sampleLocalClient ["a.png"] [] (by decide)

/-- C3: for a local companion peer, `add_media` sends exactly one
path-carrying message per item in list order, no data payload at all, then
ends the stream and reads exactly one acknowledgment. -/
theorem c3_add_media_local_trace (c : GrpcClient) (st : CompanionServiceStub)
    (info : CompanionInfo) (paths : List String) (chunks : List (List Nat))
    (hstub : c.stub = some st) (hinfo : c.companion_info = some info)
    (hlocal : info.is_local = true) :
    (add_media_body c paths chunks).events
      = paths.map (fun p => .sendMessage ⟨.filePath p⟩)
          ++ [.streamEnd, .recvMessage]
    ∧ (add_media_body c paths chunks).result = .ok ()
    ∧ (add_media_body c paths chunks).events.count .recvMessage = 1
    ∧ ∀ e ∈ (add_media_body c paths chunks).events, ∀ bs,
        e ≠ .sendMessage ⟨.dataChunk bs⟩ := by
  have hb : add_media_body c paths chunks
      = ⟨paths.map (fun p => .sendMessage ⟨.filePath p⟩)
          ++ [.streamEnd, .recvMessage], .ok ()⟩ := by
    simp [add_media_body, hstub, hinfo, hlocal]
  have h0 : (paths.map (fun p => Event.sendMessage ⟨.filePath p⟩)).count
      Event.recvMessage = 0 := by
    rw [List.count_eq_zero]
    intro hmem
    obtain ⟨p, _, hEq⟩ := List.mem_map.1 hmem
    exact Event.noConfusion hEq
  refine ⟨by rw [hb], by rw [hb], ?_, ?_⟩
  · rw [hb]
    simp [List.count_append, h0]
  · rw [hb]
    intro e he bs
    rcases List.mem_append.1 he with h | h
    · obtain ⟨p, _, rfl⟩ := List.mem_map.1 h
      simp
    · simp only [List.mem_cons, List.not_mem_nil, or_false] at h
      rcases h with rfl | rfl
      · intro hc
        exact Event.noConfusion hc
      · intro hc
        exact Event.noConfusion hc

/-- C3 witness: a local-peer upload of ["a", "b", "c"]. -/
theorem c3_witness :
    (add_media_body sampleLocalClient ["a", "b", "c"] []).events
      = (["a", "b", "c"] : List String).map (fun p => .sendMessage ⟨.filePath p⟩)
          ++ [.streamEnd, .recvMessage]
    ∧ (add_media_body sampleLocalClient ["a", "b", "c"] []).result = .ok ()
    ∧ (add_media_body sampleLocalClient ["a", "b", "c"] []).events.count
        .recvMessage = 1
    ∧ ∀ e ∈ (add_media_body sampleLocalClient ["a", "b", "c"] []).events, ∀ bs,
        e ≠ .sendMessage ⟨.dataChunk bs⟩ :=
  c3_add_media_local_trace sampleLocalClient ⟨⟨"localhost", 10882, 0⟩⟩
    ⟨"UDID-1", "localhost", 10882, true⟩ ["a", "b", "c"] [] rfl rfl rfl

/-- C4: for a remote companion peer, the byte-chunk messages `add_media`
sends equal, element for element and in order, the archive-generation
output sequence wrapped as data payloads, followed by end-of-input and
exactly one acknowledgment read. -/
theorem c4_add_media_remote_trace (c : GrpcClient) (st : CompanionServiceStub)
    (info : CompanionInfo) (paths : List String) (chunks : List (List Nat))
    (hstub : c.stub = some st) (hinfo : c.companion_info = some info)
    (hlocal : info.is_local = false) :
    (add_media_body c paths chunks).events
      = chunks.map (fun chunk => .sendMessage ⟨.dataChunk chunk⟩)
          ++ [.streamEnd, .recvMessage]
    ∧ (add_media_body c paths chunks).result = .ok ()
    ∧ (add_media_body c paths chunks).events.count .recvMessage = 1 := by
  have hb : add_media_body c paths chunks
      = ⟨chunks.map (fun chunk => .sendMessage ⟨.dataChunk chunk⟩)
          ++ [.streamEnd, .recvMessage], .ok ()⟩ := by
    simp [add_media_body, hstub, hinfo, hlocal, drain_to_stream, stream_map]
  have h0 : (chunks.map (fun chunk => Event.sendMessage ⟨.dataChunk chunk⟩)).count
      Event.recvMessage = 0 := by
    rw [List.count_eq_zero]
    intro hmem
    obtain ⟨ch, _, hEq⟩ := List.mem_map.1 hmem
    exact Event.noConfusion hEq
  refine ⟨by rw [hb], by rw [hb], ?_⟩
  rw [hb]
  simp [List.count_append, h0]

/-- C4 witness: a remote-peer upload whose archive generator produced two
chunks. -/
theorem c4_witness :
    (add_media_body sampleRemoteClient ["a", "b"] [[1, 2], [3]]).events
      = ([[1, 2], [3]] : List (List Nat)).map
          (fun chunk => .sendMessage ⟨.dataChunk chunk⟩)
          ++ [.streamEnd, .recvMessage]
    ∧ (add_media_body sampleRemoteClient ["a", "b"] [[1, 2], [3]]).result = .ok ()
    ∧ (add_media_body sampleRemoteClient ["a", "b"] [[1, 2], [3]]).events.count
        .recvMessage = 1 :=
  c4_add_media_remote_trace sampleRemoteClient ⟨⟨"10.0.0.7", 10882, 0⟩⟩
    ⟨"UDID-2", "10.0.0.7", 10882, false⟩ ["a", "b"] [[1, 2], [3]] rfl rfl rfl

/-- C10: `metadata` is the single-entry map when the target identifier is a
non-empty string and the empty map when it is absent or the empty string;
it is a pure read of the facade (a total function of the instance). -/
theorem c10_metadata_truthiness (c : GrpcClient) :
    (∀ s : String, c.target_udid = some s → ¬s = "" → c.metadata = [("udid", s)])
    ∧ (c.target_udid = none ∨ c.target_udid = some "" → c.metadata = []) := by
  constructor
  · intro s hs hne
    simp [GrpcClient.metadata, pyTruthyStr, hs, hne]
  · rintro (h | h) <;> simp [GrpcClient.metadata, pyTruthyStr, h]

/-- C10 witness: a facade with a non-empty identifier yields the one-entry
map. -/
theorem c10_witness : sampleLocalClient.metadata = [("udid", "UDID-1")] :=
  (c10_metadata_truthiness sampleLocalClient).1 "UDID-1" rfl (by decide)

/-- A permission list containing an unrecognized name makes the comprehension
`[APPROVE_MAP[p] for p in permissions]` raise `KeyError` at some
unrecognized key. -/
theorem mapPermissions_error_of_missing (perms : List String)
    (h : ∃ p ∈ perms, lookupApprove p = none) :
    ∃ k, lookupApprove k = none ∧ mapPermissions perms = .error (.keyError k) := by
  induction perms with
  | nil => simp at h
  | cons p ps ih =>
    cases hp : lookupApprove p with
    | none => exact ⟨p, hp, by simp [mapPermissions, hp]⟩
    | some v =>
      have h' : ∃ q ∈ ps, lookupApprove q = none := by
        obtain ⟨q, hq, hqn⟩ := h
        rcases List.mem_cons.1 hq with rfl | hq'
        · rw [hp] at hqn
          exact absurd hqn (by simp)
        · exact ⟨q, hq', hqn⟩
      obtain ⟨k, hk, hmap⟩ := ih h'
      exact ⟨k, hk, by simp [mapPermissions, hp, hmap]⟩

/-- C8 (amended): an approval call naming an unrecognized capability fails
before any network interaction — no message is sent and the remote approve
operation is never invoked — but the failure is a raw lookup/attribute
error, not the domain exception. -/
theorem c8_unknown_capability_fails_before_network (c : GrpcClient)
    (bundle_id : String) (perms : List String)
    (h : ∃ p ∈ perms, lookupApprove p = none) :
    (approve_body c bundle_id perms).events = []
    ∧ (∃ e, (approve_body c bundle_id perms).result = .error e
        ∧ isIdbException e = false)
    ∧ (awaitCall (approve_call c bundle_id perms)).1 = [.logCall "approve"] := by
  obtain ⟨k, hk, hmap⟩ := mapPermissions_error_of_missing perms h
  cases hstub : c.stub with
  | none =>
    refine ⟨?_, ⟨.attributeError "approve", ?_, rfl⟩, ?_⟩ <;>
      simp [approve_body, approve_call, log_and_handle_exceptions, log_call,
        func_wrapper, asyncCall, awaitCall, hstub]
  | some st =>
    refine ⟨?_, ⟨.keyError k, ?_, rfl⟩, ?_⟩ <;>
      simp [approve_body, approve_call, log_and_handle_exceptions, log_call,
        func_wrapper, asyncCall, awaitCall, hstub, hmap]

/-- C8 counterexample: requesting the unrecognized capability "location"
fails with the raw `KeyError`, which is not the domain exception the claim
requires. -/
theorem c8_counterexample :
    (awaitCall (approve_call sampleLocalClient "com.example.app" ["location"])).2
      = .error (.keyError "location")
    ∧ isIdbException (.keyError "location") = false :=
  ⟨rfl, rfl⟩

/-- C8 witness: the amended statement at the concrete "location" request. -/
theorem c8_witness :
    (approve_body sampleLocalClient "com.example.app" ["location"]).events = []
    ∧ (∃ e, (approve_body sampleLocalClient "com.example.app" ["location"]).result
        = .error e ∧ isIdbException e = false)
    ∧ (awaitCall (approve_call sampleLocalClient "com.example.app" ["location"])).1
      = [.logCall "approve"] :=
  c8_unknown_capability_fails_before_network sampleLocalClient "com.example.app"
    ["location"] (by decide)

/-- C7 (amended): on a facade whose companion resolution failed (`stub` left
`None`), every direct-companion-routed call fails — but with the
`AttributeError` of calling through the absent stub, which is not a
`PeerNotFound`-derived domain exception. -/
theorem c7_direct_calls_attribute_error (c : GrpcClient) (hstub : c.stub = none)
    (resp : List AppRecord) (pt : Option (Int × Int)) (rj : String)
    (paths : List String) (chunks : List (List Nat)) (b : String)
    (perms : List String) :
    (list_apps_body c resp).result = .error (.attributeError "list_apps")
    ∧ (accessibility_info_body c pt rj).result
      = .error (.attributeError "accessibility_info")
    ∧ (add_media_body c paths chunks).result = .error (.attributeError "add_media")
    ∧ (approve_body c b perms).result = .error (.attributeError "approve")
    ∧ ∀ msg, isIdbException (.attributeError msg) = false := by
  simp [list_apps_body, accessibility_info_body, add_media_body, approve_body,
    hstub, isIdbException]

/-- C7 counterexample: a facade constructed with a failing resolver; its
`list_apps` fails with `AttributeError`, not a `PeerNotFound`-derived domain
error as the claim states. -/
theorem c7_counterexample :
    ((grpcClientInit 9889 "localhost" (some "UDID-404") false []
        (fun _ => .error (.idbException ["PeerNotFound: no companion"]))).map
      (fun p => (list_apps_body p.1 []).result))
      = .ok (.error (.attributeError "list_apps"))
    ∧ isIdbException (.attributeError "list_apps") = false :=
  ⟨rfl, rfl⟩

/-- C7 witness: the amended statement at a concrete unresolved facade. -/
theorem c7_witness :
    (list_apps_body unresolvedClient []).result
      = .error (.attributeError "list_apps")
    ∧ (accessibility_info_body unresolvedClient none "").result
      = .error (.attributeError "accessibility_info")
    ∧ (add_media_body unresolvedClient [] []).result
      = .error (.attributeError "add_media")
    ∧ (approve_body unresolvedClient "b" []).result
      = .error (.attributeError "approve")
    ∧ ∀ msg, isIdbException (.attributeError msg) = false :=
  c7_direct_calls_attribute_error unresolvedClient rfl [] none "" [] [] "b" []

/-- With a succeeding spawn environment the spawner segment always returns
`ok`. -/
theorem spawner_ok_res (f : Bool) (d : DaemonState) :
    (start_daemon_if_needed false f d).2 = .ok () := by
  unfold start_daemon_if_needed
  by_cases h : (d.running && !f) = true <;> simp [h]

/-- With a succeeding spawn environment `provide_client` always succeeds,
returning the dialed (or cached) handle. -/
theorem provide_client_eq_of_spawn_ok (c : GrpcClient) (d : DaemonState) :
    provide_client false c d =
      ((dialStep c (start_daemon_if_needed false c.force_kill_daemon d).1).1,
       (dialStep c (start_daemon_if_needed false c.force_kill_daemon d).1).2.1,
       .ok (dialStep c (start_daemon_if_needed false c.force_kill_daemon d).1).2.2) := by
  have h := spawner_ok_res c.force_kill_daemon d
  simp only [provide_client]
  cases hsp : start_daemon_if_needed false c.force_kill_daemon d with
  | mk d1 r =>
    rw [hsp] at h
    simp only at h
    subst h
    rfl

/-- C6: when companion resolution fails with the domain exception,
construction does not throw — the facade is produced with all registry calls
installed, the failure is logged, the direct slots stay empty, and the
facade remains usable for daemon-routed calls (`provide_client` succeeds). -/
theorem c6_construction_survives_domain_resolution_failure
    (port : Nat) (host : String) (udid : Option String) (force : Bool)
    (registry : List (String × Coroutine Unit))
    (resolve : Option String → Except PyExc CompanionInfo) (e : PyExc)
    (d : DaemonState)
    (hres : resolve udid = .error e) (hidb : isIdbException e = true) :
    ∃ cl : GrpcClient,
      grpcClientInit port host udid force registry resolve
        = .ok (cl, [.logException e])
      ∧ cl.installed_calls = client_calls registry
      ∧ cl.stub = none ∧ cl.channel = none ∧ cl.companion_info = none
      ∧ ∃ c' d' h, provide_client false cl d = (c', d', .ok h) := by
  have hinit : grpcClientInit port host udid force registry resolve
      = .ok ({ port := port, host := host, target_udid := udid,
               force_kill_daemon := force, daemon_channel := none,
               daemon_stub := none, installed_calls := client_calls registry,
               companion_info := none, channel := none, stub := none },
             [.logException e]) := by
    simp [grpcClientInit, hres, hidb]
  exact ⟨_, hinit, rfl, rfl, rfl, rfl, _, _, _, provide_client_eq_of_spawn_ok _ _⟩

/-- C6 witness: a concrete failing resolver. -/
theorem c6_witness :
    ∃ cl : GrpcClient,
      grpcClientInit 9889 "localhost" (some "UDID-404") false []
        (fun _ => .error (.idbException ["PeerNotFound: no companion"]))
        = .ok (cl, [.logException (.idbException ["PeerNotFound: no companion"])])
      ∧ cl.installed_calls = client_calls []
      ∧ cl.stub = none ∧ cl.channel = none ∧ cl.companion_info = none
      ∧ ∃ c' d' h, provide_client false cl ⟨false, 0, 0⟩ = (c', d', .ok h) :=
  c6_construction_survives_domain_resolution_failure 9889 "localhost"
    (some "UDID-404") false []
    (fun _ => .error (.idbException ["PeerNotFound: no companion"]))
    (.idbException ["PeerNotFound: no companion"]) ⟨false, 0, 0⟩ rfl rfl

/-- Once the daemon runs and force-restart is off, the spawner segment is a
pure no-op: no spawn attempt, no state change. -/
theorem spawner_noop (sf : Bool) (d : DaemonState) (hr : d.running = true) :
    start_daemon_if_needed sf false d = (d, .ok ()) := by
  simp [start_daemon_if_needed, hr]

/-- A successful spawner segment leaves the daemon running. -/
theorem spawner_running_of_ok (sf f : Bool) (d : DaemonState) (u : Unit)
    (h : (start_daemon_if_needed sf f d).2 = .ok u) :
    (start_daemon_if_needed sf f d).1.running = true := by
  unfold start_daemon_if_needed at *
  by_cases h1 : (d.running && !f) = true
  · simp only [h1, if_true]
    rw [Bool.and_eq_true] at h1
    exact h1.1
  · by_cases h2 : sf = true <;> simp [h1, h2] at * 

/-- The spawner segment never dials. -/
theorem spawner_dialCount (sf f : Bool) (d : DaemonState) :
    (start_daemon_if_needed sf f d).1.dialCount = d.dialCount := by
  unfold start_daemon_if_needed
  by_cases h1 : (d.running && !f) = true <;> by_cases h2 : sf = true <;>
    simp [h1, h2]

/-- After the check-and-dial segment both slots are populated, the returned
handle wraps the cached stub and the target identifier, the client's other
fields are untouched, and the daemon's running flag is unchanged. -/
theorem dialStep_char (c : GrpcClient) (d : DaemonState) :
    (∃ ch st, (dialStep c d).1.daemon_channel = some ch
      ∧ (dialStep c d).1.daemon_stub = some st
      ∧ (dialStep c d).2.2 = ⟨st, true, c.target_udid⟩)
    ∧ (dialStep c d).1.target_udid = c.target_udid
    ∧ (dialStep c d).1.force_kill_daemon = c.force_kill_daemon
    ∧ (dialStep c d).2.1.running = d.running := by
  unfold dialStep
  cases hch : c.daemon_channel with
  | none => exact ⟨⟨_, _, rfl, rfl, rfl⟩, rfl, rfl, rfl⟩
  | some ch =>
    cases hst : c.daemon_stub with
    | none => exact ⟨⟨_, _, rfl, rfl, rfl⟩, rfl, rfl, rfl⟩
    | some st => exact ⟨⟨ch, st, hch, hst, rfl⟩, rfl, rfl, rfl⟩

/-- Characterization of a successful `provide_client`: the resulting client
caches a channel and a stub, the handle wraps that stub, the identifying
fields are preserved, and the daemon is left running. -/
theorem provide_client_ok_char (sf : Bool) (c : GrpcClient) (d : DaemonState)
    (c' : GrpcClient) (d' : DaemonState) (h : CompanionClient)
    (hp : provide_client sf c d = (c', d', .ok h)) :
    (∃ ch st, c'.daemon_channel = some ch ∧ c'.daemon_stub = some st
      ∧ h = ⟨st, true, c.target_udid⟩)
    ∧ c'.target_udid = c.target_udid
    ∧ c'.force_kill_daemon = c.force_kill_daemon
    ∧ d'.running = true := by
  simp only [provide_client] at hp
  cases hsp : start_daemon_if_needed sf c.force_kill_daemon d with
  | mk d1 r =>
    rw [hsp] at hp
    cases r with
    | error e => simp at hp
    | ok u =>
      have hrun : d1.running = true := by
        have := spawner_running_of_ok sf c.force_kill_daemon d u
          (by rw [hsp])
        rwa [hsp] at this
      simp only [Prod.mk.injEq, Except.ok.injEq] at hp
      obtain ⟨hc', hd', hh⟩ := hp
      obtain ⟨⟨ch, st, h1, h2, h3⟩, h4, h5, h6⟩ := dialStep_char c d1
      subst hc' hd' hh
      exact ⟨⟨ch, st, h1, h2, h3⟩, h4, h5, by rw [h6]; exact hrun⟩

/-- C5 (amended): after a successful `provide_client`, a subsequent
sequential invocation never opens a second connection and leaves the cached
channel and stub untouched; when the facade was constructed with
force-restart disabled it is a complete no-op returning the same handle.
(With force-restart enabled the spawner is re-invoked each call — see the
counterexample.) -/
theorem c5_cached_channel_reused (sf : Bool) (c : GrpcClient) (d : DaemonState)
    (c' : GrpcClient) (d' : DaemonState) (h : CompanionClient)
    (hfirst : provide_client sf c d = (c', d', .ok h)) :
    (c.force_kill_daemon = false → provide_client sf c' d' = (c', d', .ok h))
    ∧ ∀ c'' d'' r, provide_client sf c' d' = (c'', d'', r) →
        c'' = c' ∧ d''.dialCount = d'.dialCount := by
  obtain ⟨⟨ch, st, hch, hst, hh⟩, hud, hfk, hrun⟩ :=
    provide_client_ok_char sf c d c' d' h hfirst
  constructor
  · intro hf
    have hsp : start_daemon_if_needed sf c'.force_kill_daemon d' = (d', .ok ()) := by
      rw [hfk, hf]
      exact spawner_noop sf d' hrun
    simp only [provide_client, hsp]
    unfold dialStep
    rw [hch, hst]
    simp [hh, hud]
  · intro c'' d'' r hp2
    simp only [provide_client] at hp2
    cases hsp2 : start_daemon_if_needed sf c'.force_kill_daemon d' with
    | mk d1 r1 =>
      have hdc : d1.dialCount = d'.dialCount := by
        have hs := spawner_dialCount sf c'.force_kill_daemon d'
        rw [hsp2] at hs
        exact hs
      rw [hsp2] at hp2
      cases r1 with
      | error e =>
        simp only [Prod.mk.injEq] at hp2
        obtain ⟨h1, h2, -⟩ := hp2
        refine ⟨h1.symm, ?_⟩
        rw [← h2]
        exact hdc
      | ok u =>
        unfold dialStep at hp2
        rw [hch, hst] at hp2
        simp only [Prod.mk.injEq] at hp2
        obtain ⟨h1, h2, -⟩ := hp2
        refine ⟨h1.symm, ?_⟩
        rw [← h2]
        exact hdc

/-- C5 counterexample: a facade constructed with `force_kill_daemon=True`:
the first call succeeds (one spawn attempt), yet the second sequential
invocation performs a second spawn attempt — refuting "never triggers a
second process spawn" for every facade instance. -/
theorem c5_counterexample :
    (provide_client false forceClient ⟨false, 0, 0⟩).2.2
      = .ok ⟨⟨⟨"localhost", 9889, 0⟩⟩, true, some "UDID-3"⟩
    ∧ ((provide_client false forceClient ⟨false, 0, 0⟩).2.1).spawnAttempts = 1
    ∧ ((provide_client false (provide_client false forceClient ⟨false, 0, 0⟩).1
          ((provide_client false forceClient ⟨false, 0, 0⟩).2.1)).2.1).spawnAttempts
      = 2 :=
  ⟨rfl, rfl, rfl⟩

/-- C5 witness: on a force-restart-disabled facade the second sequential
invocation is the identity on state and returns the cached handle. -/
theorem c5_witness :
    provide_client false
        { port := 9889, host := "localhost", target_udid := some "UDID-4",
          force_kill_daemon := false,
          daemon_channel := some ⟨"localhost", 9889, 0⟩,
          daemon_stub := some ⟨⟨"localhost", 9889, 0⟩⟩, installed_calls := [],
          companion_info := none, channel := none, stub := none }
        ⟨true, 1, 1⟩
      = ({ port := 9889, host := "localhost", target_udid := some "UDID-4",
           force_kill_daemon := false,
           daemon_channel := some ⟨"localhost", 9889, 0⟩,
           daemon_stub := some ⟨⟨"localhost", 9889, 0⟩⟩, installed_calls := [],
           companion_info := none, channel := none, stub := none },
         ⟨true, 1, 1⟩, .ok ⟨⟨⟨"localhost", 9889, 0⟩⟩, true, some "UDID-4"⟩) :=
  (c5_cached_channel_reused false plainClient ⟨false, 0, 0⟩ _ _ _ rfl).1 rfl

/-- A scheduler step never changes the number of in-flight tasks. -/
theorem stepTask_tasks_length (sf : Bool) (s : Sys) (i : Nat) :
    (stepTask sf s i).tasks.length = s.tasks.length := by
  unfold stepTask
  cases hget : s.tasks.get? i with
  | none => rfl
  | some ph =>
    cases ph with
    | start =>
      cases hsp : (start_daemon_if_needed sf s.client.force_kill_daemon s.daemon).2 with
      | error e => simp [hsp, List.length_set]
      | ok u => simp [hsp, List.length_set]
    | spawned => simp [List.length_set]
    | done r => rfl

/-- Running a schedule never changes the number of in-flight tasks. -/
theorem runSched_tasks_length (sf : Bool) (sched : List Nat) (s : Sys) :
    (runSched sf s sched).tasks.length = s.tasks.length := by
  induction sched generalizing s with
  | nil => rfl
  | cons i rest ih => rw [runSched, ih, stepTask_tasks_length]

/-- One scheduler step preserves the success-run invariant (force-restart
off, succeeding spawn environment, fresh facade). -/
theorem stepTask_invOk (c0 : GrpcClient) (hf : c0.force_kill_daemon = false)
    (hch : c0.daemon_channel = none) (hst : c0.daemon_stub = none)
    (s : Sys) (i : Nat) (hinv : InvOk c0 s) : InvOk c0 (stepTask false s i) := by
  cases hget : s.tasks.get? i with
  | none =>
    have hstep : stepTask false s i = s := by
      unfold stepTask
      rw [hget]
    rw [hstep]
    exact hinv
  | some ph =>
    have hmem : ph ∈ s.tasks := List.get?_mem hget
    rcases hinv with ⟨hc, hd, ht⟩ | ⟨hc, hd, ht⟩ | ⟨hc, hd, ht⟩
    · -- Phase 1: nothing has happened yet; only .start tasks exist.
      have hph : ph = .start := ht _ hmem
      subst hph
      have hstep : stepTask false s i
          = { s with daemon := ⟨true, 1, 0⟩, tasks := s.tasks.set i .spawned } := by
        unfold stepTask
        rw [hget]
        simp [hc, hf, hd, start_daemon_if_needed]
      rw [hstep]
      refine Or.inr (Or.inl ⟨hc, rfl, ?_⟩)
      intro t htm
      rcases List.mem_or_eq_of_mem_set htm with htm' | rfl
      · exact Or.inl (ht _ htm')
      · exact Or.inr rfl
    · -- Phase 2: daemon up, not yet dialed.
      cases ph with
      | start =>
        have hstep : stepTask false s i
            = { s with daemon := ⟨true, 1, 0⟩, tasks := s.tasks.set i .spawned } := by
          unfold stepTask
          rw [hget]
          simp [hc, hf, hd, start_daemon_if_needed]
        rw [hstep]
        refine Or.inr (Or.inl ⟨hc, rfl, ?_⟩)
        intro t htm
        rcases List.mem_or_eq_of_mem_set htm with htm' | rfl
        · exact ht _ htm'
        · exact Or.inr rfl
      | spawned =>
        have hstep : stepTask false s i
            = ⟨{ c0 with daemon_channel := some (chZero c0)
                         daemon_stub := some ⟨chZero c0⟩ }, ⟨true, 1, 1⟩,
               s.tasks.set i (.done (.ok (handleZero c0)))⟩ := by
          unfold stepTask
          rw [hget]
          simp [hc, hd, dialStep, hch, hst, chZero, handleZero]
        rw [hstep]
        refine Or.inr (Or.inr ⟨rfl, rfl, ?_⟩)
        intro t htm
        rcases List.mem_or_eq_of_mem_set htm with htm' | rfl
        · rcases ht _ htm' with h | h
          · exact Or.inl h
          · exact Or.inr (Or.inl h)
        · exact Or.inr (Or.inr rfl)
      | done r =>
        rcases ht _ hmem with h | h <;> exact absurd h (by simp)
    · -- Phase 3: dialed; finished tasks hold the unique handle.
      cases ph with
      | start =>
        have hstep : stepTask false s i
            = { s with daemon := ⟨true, 1, 1⟩, tasks := s.tasks.set i .spawned } := by
          unfold stepTask
          rw [hget]
          simp [hc, hf, hd, start_daemon_if_needed]
        rw [hstep]
        refine Or.inr (Or.inr ⟨hc, rfl, ?_⟩)
        intro t htm
        rcases List.mem_or_eq_of_mem_set htm with htm' | rfl
        · exact ht _ htm'
        · exact Or.inr (Or.inl rfl)
      | spawned =>
        have hstep : stepTask false s i
            = ⟨s.client, s.daemon,
               s.tasks.set i (.done (.ok (handleZero c0)))⟩ := by
          unfold stepTask
          rw [hget]
          simp [hc, hd, dialStep, chZero, handleZero]
        rw [hstep]
        refine Or.inr (Or.inr ⟨hc, hd, ?_⟩)
        intro t htm
        rcases List.mem_or_eq_of_mem_set htm with htm' | rfl
        · exact ht _ htm'
        · exact Or.inr (Or.inr rfl)
      | done r =>
        have hstep : stepTask false s i = s := by
          unfold stepTask
          rw [hget]
        rw [hstep]
        exact Or.inr (Or.inr ⟨hc, hd, ht⟩)

/-- One scheduler step preserves the failing-spawn invariant: no task ever
dials and every finished task saw the same failure. -/
theorem stepTask_invFail (c0 : GrpcClient) (s : Sys) (i : Nat)
    (hinv : InvFail c0 s) : InvFail c0 (stepTask true s i) := by
  obtain ⟨hc, hrun, hdc, ht⟩ := hinv
  cases hget : s.tasks.get? i with
  | none =>
    have hstep : stepTask true s i = s := by
      unfold stepTask
      rw [hget]
    rw [hstep]
    exact ⟨hc, hrun, hdc, ht⟩
  | some ph =>
    have hmem : ph ∈ s.tasks := List.get?_mem hget
    cases ph with
    | start =>
      have hstep : stepTask true s i
          = { s with
              daemon := { s.daemon with
                          running := false,
                          spawnAttempts := s.daemon.spawnAttempts + 1 },
              tasks := s.tasks.set i (.done (.error .daemonUnavailable)) } := by
        unfold stepTask
        rw [hget]
        simp [start_daemon_if_needed, hrun]
      rw [hstep]
      refine ⟨hc, rfl, hdc, ?_⟩
      intro t htm
      rcases List.mem_or_eq_of_mem_set htm with htm' | rfl
      · exact ht _ htm'
      · exact Or.inr rfl
    | spawned =>
      rcases ht _ hmem with h | h <;> exact absurd h (by simp)
    | done r =>
      have hstep : stepTask true s i = s := by
        unfold stepTask
        rw [hget]
      rw [hstep]
      exact ⟨hc, hrun, hdc, ht⟩

/-- The success-run invariant holds along any schedule. -/
theorem runSched_invOk (c0 : GrpcClient) (hf : c0.force_kill_daemon = false)
    (hch : c0.daemon_channel = none) (hst : c0.daemon_stub = none)
    (sched : List Nat) (s : Sys) (hinv : InvOk c0 s) :
    InvOk c0 (runSched false s sched) := by
  induction sched generalizing s with
  | nil => exact hinv
  | cons i rest ih => exact ih _ (stepTask_invOk c0 hf hch hst s i hinv)

/-- The failing-spawn invariant holds along any schedule. -/
theorem runSched_invFail (c0 : GrpcClient) (sched : List Nat) (s : Sys)
    (hinv : InvFail c0 s) : InvFail c0 (runSched true s sched) := by
  induction sched generalizing s with
  | nil => exact hinv
  | cons i rest ih => exact ih _ (stepTask_invFail c0 s i hinv)

/-- The fresh N-caller system satisfies the success-run invariant. -/
theorem invOk_init (c0 : GrpcClient) (n : Nat) : InvOk c0 (initSys c0 n) :=
  Or.inl ⟨rfl, rfl, fun _ htm => List.eq_of_mem_replicate htm⟩

/-- The fresh N-caller system satisfies the failing-spawn invariant. -/
theorem invFail_init (c0 : GrpcClient) (n : Nat) : InvFail c0 (initSys c0 n) :=
  ⟨rfl, rfl, rfl, fun _ htm => Or.inl (List.eq_of_mem_replicate htm)⟩

/-- C9 (amended): for N ≥ 1 concurrent first-time callers of
`provide_client` on a facade with force-restart disabled, under every
cooperative schedule that runs all callers to completion: if spawning
succeeds there is exactly one spawn attempt and exactly one dial, and every
caller receives the same handle; if spawning fails, every caller receives
the same failure (each caller's own spawner invocation re-attempts the
spawn, so attempts are not unique in the failure case — and not with
force-restart enabled either, see the counterexample). -/
theorem c9_single_flight (sf : Bool) (c0 : GrpcClient) (n : Nat)
    (sched : List Nat) (hn : 0 < n) (hf : c0.force_kill_daemon = false)
    (hch : c0.daemon_channel = none) (hst : c0.daemon_stub = none)
    (hall : ∀ t ∈ (runSched sf (initSys c0 n) sched).tasks, t.isDone = true) :
    (sf = false →
      (runSched sf (initSys c0 n) sched).daemon.spawnAttempts = 1
      ∧ (runSched sf (initSys c0 n) sched).daemon.dialCount = 1
      ∧ ∀ t ∈ (runSched sf (initSys c0 n) sched).tasks,
          t = .done (.ok (handleZero c0)))
    ∧ (sf = true →
      ∀ t ∈ (runSched sf (initSys c0 n) sched).tasks,
        t = .done (.error .daemonUnavailable)) := by
  constructor
  · intro hsf
    subst hsf
    have hinv := runSched_invOk c0 hf hch hst sched (initSys c0 n) (invOk_init c0 n)
    have hlen : (runSched false (initSys c0 n) sched).tasks.length = n := by
      rw [runSched_tasks_length]
      simp [initSys]
    have hne : (runSched false (initSys c0 n) sched).tasks ≠ [] := by
      intro h0
      rw [h0] at hlen
      simp at hlen
      omega
    obtain ⟨t0, ht0⟩ := List.exists_mem_of_ne_nil _ hne
    rcases hinv with ⟨-, -, ht⟩ | ⟨-, -, ht⟩ | ⟨-, hdm, ht⟩
    · have h2 := hall _ ht0
      rw [ht _ ht0] at h2
      simp [TaskPhase.isDone] at h2
    · rcases ht _ ht0 with h1 | h1 <;>
        · have h2 := hall _ ht0
          rw [h1] at h2
          simp [TaskPhase.isDone] at h2
    · refine ⟨by rw [hdm], by rw [hdm], ?_⟩
      intro t htm
      rcases ht _ htm with h1 | h1 | h1
      · have h2 := hall _ htm
        rw [h1] at h2
        simp [TaskPhase.isDone] at h2
      · have h2 := hall _ htm
        rw [h1] at h2
        simp [TaskPhase.isDone] at h2
      · exact h1
  · intro hsf
    subst hsf
    obtain ⟨-, -, -, ht⟩ :=
      runSched_invFail c0 sched (initSys c0 n) (invFail_init c0 n)
    intro t htm
    rcases ht _ htm with h1 | h1
    · have h2 := hall _ htm
      rw [h1] at h2
      simp [TaskPhase.isDone] at h2
    · exact h1

/-- C9 counterexample: with a force-restart facade, two concurrent
first-time callers each pass through the spawner before the first dial:
two spawn attempts occur even though the run completes and both callers
dial once — refuting "exactly one daemon spawn attempt" for every facade
instance. -/
theorem c9_counterexample :
    (runSched false (initSys forceClient 2) [0, 1, 0, 1]).daemon.spawnAttempts = 2
    ∧ (runSched false (initSys forceClient 2) [0, 1, 0, 1]).daemon.dialCount = 1
    ∧ ∀ t ∈ (runSched false (initSys forceClient 2) [0, 1, 0, 1]).tasks,
        t.isDone = true :=
  ⟨rfl, rfl, by decide⟩

/-- C9 witness: a single first-time caller scheduled to completion. -/
theorem c9_witness :
    (false = false →
      (runSched false (initSys plainClient 1) [0, 0]).daemon.spawnAttempts = 1
      ∧ (runSched false (initSys plainClient 1) [0, 0]).daemon.dialCount = 1
      ∧ ∀ t ∈ (runSched false (initSys plainClient 1) [0, 0]).tasks,
          t = .done (.ok (handleZero plainClient)))
    ∧ (false = true →
      ∀ t ∈ (runSched false (initSys plainClient 1) [0, 0]).tasks,
        t = .done (.error .daemonUnavailable)) :=
  c9_single_flight false plainClient 1 [0, 0] (by decide) rfl rfl rfl (by decide)
